import Mathlib

/-!
Verification of the maomaodaily activity tracker's persistence and aggregation
layer, shallowly embedded from the Python sources.

Source files modelled here:
- `src/utils/data_manager.py` — local JSON record store plus the hybrid
  (local + Gist) sync coordinator `load_daily_data` / `save_daily_data`
  and their weekly twins;
- `src/utils/gist_manager.py` — the remote (GitHub Gist) blob store
  `load_data_from_gist` / `save_data_to_gist`;
- `src/utils/date_utils.py` — `get_week_start`, `get_week_end`,
  `get_week_dates`, `parse_iso_date`;
- `src/config/settings.py` — the static activity catalog;
- `src/summary_dashboard.py`, `src/pages/Daily.py`, `src/pages/Weekly.py` —
  the completion-count and recent-dates aggregation snippets.

Modelling conventions. JSON documents are an inductive `Json` value (numbers
as `Int`); serialization (`json.dumps`) and parsing (`json.loads`) are the
executable `dumps` / `loads` below, and `loads (dumps j) = some j` is proved,
so the text layer is real, not assumed. A local file is `Option String`
(`none` = file absent; a present file holds arbitrary text, which may fail to
parse, as in the corruption path of `load_data`). Python `datetime.date`
values are represented by their proleptic-Gregorian ordinal (an `Int`, with
`date(1,1,1)` at ordinal 1 exactly as in CPython); `date_ordinal` below
reproduces `datetime.date.toordinal`. Effectful outcomes (Gist configured,
HTTP GET / PATCH success, local `open(..., "w")` success) are booleans in a
`SyncEnv` record; an exception escaping a modelled function is an explicit
error flag in its result.
-/

/-- A JSON value, as produced by Python's `json` module (numbers restricted
to integers; the tracker's records also hold floats, which this model folds
into `num` without affecting any of the properties proved here). -/
inductive Json where
  | null : Json
  | bool : Bool → Json
  | num : Int → Json
  | str : String → Json
  | arr : List Json → Json
  | obj : List (String × Json) → Json

/-- Python truthiness (`if data:`) of a JSON value: empty dict/list/string,
zero and `None`/`False` are falsy. -/
def Json.truthy : Json → Bool
  | .null => false
  | .bool b => b
  | .num n => n != 0
  | .str s => !s.isEmpty
  | .arr xs => !xs.isEmpty
  | .obj ms => !ms.isEmpty

/-- Escape one character for a JSON string literal (quote and backslash). -/
def escChar (c : Char) : List Char :=
  if c = '"' ∨ c = '\\' then ['\\', c] else [c]

/-- Escape a whole string body for a JSON string literal. -/
def escString : List Char → List Char
  | [] => []
  | c :: cs => escChar c ++ escString cs

/-- The decimal digit character for `d < 10`. -/
def digitChar : Nat → Char
  | 0 => '0' | 1 => '1' | 2 => '2' | 3 => '3' | 4 => '4'
  | 5 => '5' | 6 => '6' | 7 => '7' | 8 => '8' | _ => '9'

/-- Decimal digits of `n` (most significant first), with explicit fuel so the
recursion is structural; `fuel = n` always suffices. -/
def natChars : Nat → Nat → List Char
  | 0, _ => []
  | fuel+1, n => if n = 0 then [] else natChars fuel (n / 10) ++ [digitChar (n % 10)]

/-- Decimal rendering of a natural number. -/
def dumpNat (n : Nat) : List Char :=
  if _h : n = 0 then ['0'] else natChars n n

/-- Decimal rendering of an integer. -/
def dumpInt (i : Int) : List Char :=
  if i < 0 then '-' :: dumpNat i.natAbs else dumpNat i.natAbs

mutual
/-- Serialize a JSON value (the model of `json.dumps`; whitespace-free,
whereas the source passes `indent=2` — the spec leaves indentation free). -/
def dumpVal : Json → List Char
  | .num i => dumpInt i
  | .null => ['n'] ++ ['u', 'l', 'l']
  | .str s => '"' :: (escString s.data ++ ['"'])
  | .bool true => ['t'] ++ ['r', 'u', 'e']
  | .arr xs => '[' :: (dumpElems xs ++ [']'])
  | .bool false => ['f'] ++ ['a', 'l', 's', 'e']
  | .obj ms => '\x7b' :: (dumpMembers ms ++ ['\x7d'])

/-- Serialize array elements, comma separated. -/
def dumpElems : List Json → List Char
  | [] => []
  | [x] => dumpVal x
  | x :: y :: ys => dumpVal x ++ ',' :: dumpElems (y :: ys)

/-- Serialize object members, comma separated. -/
def dumpMembers : List (String × Json) → List Char
  | [] => []
  | [(k, v)] => '"' :: (escString k.data ++ '"' :: ':' :: dumpVal v)
  | (k, v) :: m :: ms =>
      ('"' :: (escString k.data ++ '"' :: ':' :: dumpVal v)) ++ ',' :: dumpMembers (m :: ms)
end

/-- Serialize a JSON value to a string (`json.dumps`). -/
def dumps (j : Json) : String := String.mk (dumpVal j)

/-- Numeric value of a decimal digit character. -/
def digitVal (c : Char) : Nat := c.toNat - 48

/-- Numeric value of a string of decimal digits. -/
def digitsVal (ds : List Char) : Nat :=
  ds.foldl (fun a c => a * 10 + digitVal c) 0

/-- Parse a run of decimal digits at the head of the input. -/
def parseNum (cs : List Char) : Option (Nat × List Char) :=
  let ds := cs.takeWhile Char.isDigit
  if ds.isEmpty then none else some (digitsVal ds, cs.dropWhile Char.isDigit)

/-- Parse a JSON string body up to its closing quote, undoing `escChar`. -/
def parseStrAux : List Char → Option (List Char × List Char)
  | [] => none
  | c :: rest =>
    if c = '"' then some ([], rest)
    else if c = '\\' then
      match rest with
      | [] => none
      | c2 :: rest2 =>
        if c2 = '"' ∨ c2 = '\\' then
          match parseStrAux rest2 with
          | some (s, r) => some (c2 :: s, r)
          | none => none
        else none
    else
      match parseStrAux rest with
      | some (s, r) => some (c :: s, r)
      | none => none

mutual
/-- Parse one JSON value (fuelled recursive descent; the model of
`json.loads`' grammar, restricted to the subset `dumpVal` emits). -/
def parseVal : Nat → List Char → Option (Json × List Char)
  | 0, _ => none
  | _+1, [] => none
  | f+1, c :: cs =>
    if c = 'n' then
      match cs with
      | 'u' :: 'l' :: 'l' :: rest => some (.null, rest)
      | _ => none
    else if c = 't' then
      match cs with
      | 'r' :: 'u' :: 'e' :: rest => some (.bool true, rest)
      | _ => none
    else if c = 'f' then
      match cs with
      | 'a' :: 'l' :: 's' :: 'e' :: rest => some (.bool false, rest)
      | _ => none
    else if c = '"' then
      match parseStrAux cs with
      | some (s, r) => some (.str (String.mk s), r)
      | none => none
    else if c = '[' then
      match parseElems f cs with
      | some (vs, r) => some (.arr vs, r)
      | none => none
    else if c = '\x7b' then
      match parseMembers f cs with
      | some (ms, r) => some (.obj ms, r)
      | none => none
    else if c = '-' then
      match parseNum cs with
      | some (n, r) => some (.num (-(n : Int)), r)
      | none => none
    else
      match parseNum (c :: cs) with
      | some (n, r) => some (.num ((n : Int)), r)
      | none => none

/-- Parse the elements of an array after its opening bracket. -/
def parseElems : Nat → List Char → Option (List Json × List Char)
  | 0, _ => none
  | _+1, [] => none
  | f+1, c :: cs =>
    if c = ']' then some ([], cs)
    else
      match parseVal f (c :: cs) with
      | some (v, ',' :: rest) =>
        (match parseElems f rest with
         | some (vs, r) => some (v :: vs, r)
         | none => none)
      | some (v, ']' :: rest) => some ([v], rest)
      | _ => none

/-- Parse the members of an object after its opening brace. -/
def parseMembers : Nat → List Char → Option (List (String × Json) × List Char)
  | 0, _ => none
  | _+1, [] => none
  | f+1, c :: cs =>
    if c = '\x7d' then some ([], cs)
    else if c = '"' then
      match parseStrAux cs with
      | some (k, ':' :: rest) =>
        (match parseVal f rest with
         | some (v, ',' :: rest2) =>
           (match parseMembers f rest2 with
            | some (ms, r) => some ((String.mk k, v) :: ms, r)
            | none => none)
         | some (v, '\x7d' :: rest2) => some ([(String.mk k, v)], rest2)
         | _ => none)
      | _ => none
    else none
end

/-- Parse a string as a single JSON document (the model of `json.loads`):
`none` models a raised `JSONDecodeError`. -/
def loads (s : String) : Option Json :=
  match parseVal (s.length + 1) s.data with
  | some (j, []) => some j
  | _ => none

/-- A list of characters whose head (if any) is not a decimal digit — the
context in which a serialized number can be re-parsed unambiguously. -/
def nonDigitHead : List Char → Prop :=
  fun l => ∀ c, l.head? = some c → c.isDigit = false

/-- Characters that can start a serialized JSON value. -/
def isValueHead (c : Char) : Bool :=
  c == 'n' || c == 't' || c == 'f' || c == '"' || c == '[' || c == '\x7b' || c == '-' || c.isDigit

/-- Outcome flags for one pass through the persistence layer:
`gist_configured` models `GIST_AVAILABLE and initialize_gist_config()`,
`fetch_ok` models the Gist GET request succeeding, `patch_ok` the Gist PATCH
request succeeding, and `local_write_ok` the local `open(..., "w")` +
`json.dump` succeeding (false = it raises). -/
structure SyncEnv where
  gist_configured : Bool
  fetch_ok : Bool
  patch_ok : Bool
  local_write_ok : Bool

/-- The remote Gist blob container: named files with raw text contents. -/
abbrev GistFiles := List (String × String)

/-- Model of `gist_manager.load_data_from_gist` (src/utils/gist_manager.py
lines 36-69): not configured → `{}` (line 47); any exception in the GET /
`response.json()` → `st.error` then `{}` (lines 67-69); file missing from the
container → warning then `{}` (lines 64-66); otherwise `json.loads` of the
file content, with a parse failure also caught by the same handler → `{}`. -/
def load_data_from_gist (env : SyncEnv) (container : GistFiles) (filename : String) : Json :=
  if env.gist_configured = false then Json.obj []
  else if env.fetch_ok = false then Json.obj []
  else
    match container.lookup filename with
    | none => Json.obj []
    | some content =>
      match loads content with
      | some j => j
      | none => Json.obj []

/-- The `files_data` dict built by `save_data_to_gist` (lines 99-111): every
existing file except `filename` is re-submitted with its current content, in
order, and the updated file is added last with the new serialization. -/
def gist_files_update (container : GistFiles) (filename : String) (data : Json) : GistFiles :=
  (container.filter (fun kv => kv.1 != filename)) ++ [(filename, dumps data)]

/-- Result of a remote save: the boolean the function returns, and the
container state afterwards (unchanged unless the PATCH succeeded). -/
structure GistSaveResult where
  ok : Bool
  container : GistFiles

/-- Model of `gist_manager.save_data_to_gist` (src/utils/gist_manager.py
lines 71-124): not configured → `False` (line 83); GET failure → caught,
`st.error`, `False` (lines 122-124); PATCH failure → likewise `False`, with
the Gist atomically unchanged; otherwise the container is replaced by
`gist_files_update` and `True` is returned. -/
def save_data_to_gist (env : SyncEnv) (container : GistFiles) (data : Json) (filename : String) :
    GistSaveResult :=
  if env.gist_configured = false then ⟨false, container⟩
  else if env.fetch_ok = false then ⟨false, container⟩
  else if env.patch_ok then ⟨true, gist_files_update container filename data⟩
  else ⟨false, container⟩

/-- Name of the daily document (src/config/settings.py line 12). -/
def DAILY_DATA_FILE : String := "daily_data.json"

/-- Name of the weekly document (src/config/settings.py line 13). -/
def WEEKLY_DATA_FILE : String := "weekly_data.json"

/-- Model of `data_manager.load_data` (src/utils/data_manager.py lines
30-49) on the content of the backing file: absent file → `{}`; present but
failing `json.load` (`JSONDecodeError`) → `{}`; otherwise the parsed value. -/
def load_data (file : Option String) : Json :=
  match file with
  | none => Json.obj []
  | some content =>
    match loads content with
    | some j => j
    | none => Json.obj []

/-- Model of `data_manager.save_data` (lines 51-62): the new content of the
backing file is the serialization of `data` (full overwrite). -/
def save_data (data : Json) : String := dumps data

/-- Result of a sync-level save: whether a `PersistenceError` escaped to the
caller, the local file afterwards, and the Gist container afterwards. -/
structure SyncSaveResult where
  persistence_error : Bool
  local_file : Option String
  container : GistFiles

/-- Model of `data_manager.save_daily_data` / `save_weekly_data`
(src/utils/data_manager.py lines 122-137 and 159-174), parametrized by the
document name: `save_*_data_local` runs first and unconditionally; if it
raises, the exception escapes (nothing has been written, the Gist is never
attempted). Otherwise, when the Gist is configured, `gist_save_*_data`
runs inside `try/except`, so any remote failure only produces a warning. -/
def sync_save (env : SyncEnv) (local_file : Option String) (container : GistFiles)
    (data : Json) (filename : String) : SyncSaveResult :=
  if env.local_write_ok = false then ⟨true, local_file, container⟩
  else
    if env.gist_configured then
      ⟨false, some (save_data data), (save_data_to_gist env container data filename).container⟩
    else ⟨false, some (save_data data), container⟩

/-- `data_manager.save_daily_data` (lines 122-137). -/
def save_daily_data (env : SyncEnv) (lf : Option String) (cont : GistFiles) (data : Json) :
    SyncSaveResult :=
  sync_save env lf cont data DAILY_DATA_FILE

/-- `data_manager.save_weekly_data` (lines 159-174). -/
def save_weekly_data (env : SyncEnv) (lf : Option String) (cont : GistFiles) (data : Json) :
    SyncSaveResult :=
  sync_save env lf cont data WEEKLY_DATA_FILE

/-- Result of a sync-level load: the returned collection and the local file
afterwards (the load path may write a local backup). -/
structure SyncLoadResult where
  data : Json
  local_file : Option String

/-- Model of `data_manager.load_daily_data` / `load_weekly_data`
(src/utils/data_manager.py lines 102-120 and 139-157): when the Gist is
configured, `gist_load_*_data` is called (it never raises — all its failure
modes return `{}`); a truthy result is written to the local store as a backup
and returned (if that backup write raises, the `except` at line 116 catches
it and the code falls through to the local load); a falsy result falls
through to `load_*_data_local`. -/
def sync_load (env : SyncEnv) (local_file : Option String) (container : GistFiles)
    (filename : String) : SyncLoadResult :=
  if env.gist_configured then
    if (load_data_from_gist env container filename).truthy then
      if env.local_write_ok then
        ⟨load_data_from_gist env container filename,
         some (save_data (load_data_from_gist env container filename))⟩
      else ⟨load_data local_file, local_file⟩
    else ⟨load_data local_file, local_file⟩
  else ⟨load_data local_file, local_file⟩

/-- `data_manager.load_daily_data` (lines 102-120). -/
def load_daily_data (env : SyncEnv) (lf : Option String) (cont : GistFiles) : SyncLoadResult :=
  sync_load env lf cont DAILY_DATA_FILE

/-- `data_manager.load_weekly_data` (lines 139-157). -/
def load_weekly_data (env : SyncEnv) (lf : Option String) (cont : GistFiles) : SyncLoadResult :=
  sync_load env lf cont WEEKLY_DATA_FILE

/-- Gregorian leap-year test (as in `calendar.isleap`). -/
def is_leap_year (y : Nat) : Bool := y % 4 == 0 && (y % 100 != 0 || y % 400 == 0)

/-- Days in a month of the proleptic Gregorian calendar. -/
def days_in_month (y m : Nat) : Nat :=
  if m = 2 then (if is_leap_year y then 29 else 28)
  else if m = 4 ∨ m = 6 ∨ m = 9 ∨ m = 11 then 30
  else 31

/-- Days in year `y` strictly before month `m`. -/
def days_before_month (y : Nat) : Nat → Nat
  | 0 => 0
  | 1 => 0
  | m + 2 => days_before_month y (m + 1) + days_in_month y (m + 1)

/-- Proleptic-Gregorian ordinal of a calendar date, exactly
`datetime.date(y, m, d).toordinal()` (ordinal 1 = 0001-01-01, a Monday).
Dates are represented by this ordinal throughout: every `datetime.date`
operation the sources use (`-: timedelta`, `.weekday()`, comparison,
difference in days) factors through it. -/
def date_ordinal (y m d : Nat) : Int :=
  ((365 * (y - 1) + (y - 1) / 4 - (y - 1) / 100 + (y - 1) / 400
    + days_before_month y m + d : Nat) : Int)

/-- `datetime.date.weekday()`: 0 = Monday ... 6 = Sunday. -/
def date_weekday (o : Int) : Int := (o - 1) % 7

/-- `date_utils.get_week_start` (src/utils/date_utils.py lines 18-28):
`date - timedelta(days=date.weekday())`, the Monday of `date`'s week. -/
def get_week_start (o : Int) : Int := o - date_weekday o

/-- `date_utils.get_week_end` (lines 30-40). -/
def get_week_end (o : Int) : Int := get_week_start o + 6

/-- `date_utils.get_week_dates` (lines 42-53). -/
def get_week_dates (o : Int) : List Int :=
  (List.range 7).map (fun i => get_week_start o + (i : Int))

/-- Model of `date_utils.parse_iso_date` = `datetime.date.fromisoformat`
(src/utils/date_utils.py lines 132-142) on `YYYY-MM-DD` input: `none`
models the raised `ValueError` for any malformed or non-calendar input. -/
def parse_iso_date (s : String) : Option Int :=
  match s.data with
  | [y1, y2, y3, y4, s1, m1, m2, s2, d1, d2] =>
    if y1.isDigit && y2.isDigit && y3.isDigit && y4.isDigit && s1 == '-'
        && m1.isDigit && m2.isDigit && s2 == '-' && d1.isDigit && d2.isDigit then
      let y := ((digitVal y1 * 10 + digitVal y2) * 10 + digitVal y3) * 10 + digitVal y4
      let m := digitVal m1 * 10 + digitVal m2
      let d := digitVal d1 * 10 + digitVal d2
      if 1 ≤ y ∧ 1 ≤ m ∧ m ≤ 12 ∧ 1 ≤ d ∧ d ≤ days_in_month y m then
        some (date_ordinal y m d)
      else none
    else none
  | _ => none

/-- The recent-dates computation inlined in `render_activity_dashboard`
(src/summary_dashboard.py lines 128-145) and `render_statistics`
(src/pages/Daily.py lines 277-291), with the hard-coded window (60 days) and
limit (7) abstracted as parameters: collect the keys of the collection that
parse as ISO dates (a `ValueError` skips the key) and satisfy
`(today - date).days <= within_days`, sort ascending (`list.sort()`), and
keep the last `lim` entries (`all_dates[-7:] if len(all_dates) > 7 else
all_dates`). This definition is the `all_dates` accumulation loop. -/
def recent_dates_pool (today : Int) (coll : List (String × Json)) (within_days : Nat) :
    List Int :=
  coll.filterMap (fun kv =>
    match parse_iso_date kv.1 with
    | some d => if today - d ≤ (within_days : Int) then some d else none
    | none => none)

/-- The sort-and-slice step of the same snippets: sort `all_dates`
ascending (`list.sort()`) and keep the last `lim` entries
(`all_dates[-7:] if len(all_dates) > 7 else all_dates`). -/
def recent_dates (today : Int) (coll : List (String × Json)) (within_days lim : Nat) :
    List Int :=
  let sorted := (recent_dates_pool today coll within_days).insertionSort (· ≤ ·)
  if lim < sorted.length then sorted.drop (sorted.length - lim) else sorted

/-- Kind of a daily activity in the static catalog. -/
inductive ActivityType where
  | boolean : ActivityType
  | complex : ActivityType

/-- One entry of the activity catalog (src/config/settings.py). -/
structure ActivityDef where
  id : String
  name : String
  category : String
  type : ActivityType
  has_wordcount : Bool := false
  has_time : Bool := false

/-- The static daily activity catalog `DAILY_ACTIVITIES`
(src/config/settings.py lines 20-43). -/
def DAILY_ACTIVITIES : List ActivityDef :=
  [⟨"jung", "荣格", "学习安排", .boolean, false, false⟩,
   ⟨"english", "英语", "学习安排", .boolean, false, false⟩,
   ⟨"metaphysics", "玄学", "学习安排", .boolean, false, false⟩,
   ⟨"thesis", "论文", "学习安排", .complex, true, false⟩,
   ⟨"going_out", "出门", "生活", .boolean, false, false⟩,
   ⟨"bowel_movement", "poo", "生活", .boolean, false, false⟩,
   ⟨"dog_walking", "遛狗", "生活", .boolean, false, false⟩,
   ⟨"exercise", "健身", "生活", .complex, false, true⟩,
   ⟨"drawing", "画画", "娱乐", .boolean, false, false⟩,
   ⟨"writing", "写作", "娱乐", .boolean, false, false⟩,
   ⟨"watching_shows", "看剧", "娱乐", .boolean, false, false⟩,
   ⟨"casual_reading", "闲书", "娱乐", .boolean, false, false⟩,
   ⟨"friends", "朋友", "娱乐", .boolean, false, false⟩,
   ⟨"doi", "DOI", "娱乐", .boolean, false, false⟩]

/-- Ids of boolean catalog activities (`[a["id"] for a in DAILY_ACTIVITIES
if a["type"] == "boolean"]`, src/summary_dashboard.py line 67). -/
def boolean_activity_ids : List String :=
  (DAILY_ACTIVITIES.filter (fun a => match a.type with
    | .boolean => true
    | .complex => false)).map (fun a => a.id)

/-- Ids of complex catalog activities (src/summary_dashboard.py line 68). -/
def complex_activity_ids : List String :=
  (DAILY_ACTIVITIES.filter (fun a => match a.type with
    | .complex => true
    | .boolean => false)).map (fun a => a.id)

/-- Truthiness of a record's field: both `act in rec and rec[act]`
(summary_dashboard) and `rec.get(act, False)` (Weekly page) reduce to this. -/
def record_truthy_at (record : List (String × Json)) (id : String) : Bool :=
  match record.lookup id with
  | some v => v.truthy
  | none => false

/-- The completed-activities count of `render_activity_dashboard`
(src/summary_dashboard.py lines 66-73): catalog booleans plus catalog
complex activities whose stored value is truthy. -/
def dashboard_completed_count (record : List (String × Json)) : Nat :=
  (boolean_activity_ids.filter (record_truthy_at record)).length
    + (complex_activity_ids.filter (record_truthy_at record)).length

/-- The hard-coded boolean-activity list of `render_daily_summary`
(src/pages/Weekly.py lines 92-93). -/
def weekly_page_boolean_activities : List String :=
  ["jung", "english", "going_out", "bowel_movement", "dog_walking",
   "metaphysics", "drawing", "writing", "watching_shows", "casual_reading", "friends"]

/-- The hard-coded complex-activity list of `render_daily_summary`
(src/pages/Weekly.py line 94). -/
def weekly_page_complex_activities : List String := ["exercise", "thesis"]

/-- The per-day `activity_count` of `render_daily_summary`
(src/pages/Weekly.py lines 96-97). -/
def weekly_page_activity_count (record : List (String × Json)) : Nat :=
  (weekly_page_boolean_activities.filter (record_truthy_at record)).length
    + (weekly_page_complex_activities.filter (record_truthy_at record)).length

/-- A record field holding exactly the JSON boolean `true`. -/
def flag_true (record : List (String × Json)) (id : String) : Bool :=
  match record.lookup id with
  | some (Json.bool true) => true
  | _ => false

/-- Modelled from the spec: `dailyCompletionCount(record)` — "count of
boolean activities with flag `true`, plus complex activities (`exercise`,
`thesis`) whose boolean completion flag is `true`" (spec §4.5), with the
boolean activities taken from the catalog. -/
def spec_dailyCompletionCount (record : List (String × Json)) : Nat :=
  (boolean_activity_ids.filter (flag_true record)).length
    + (complex_activity_ids.filter (flag_true record)).length

/-- The same count with the `doi` activity removed from the boolean list —
what the Weekly page actually computes. -/
def spec_dailyCompletionCount_no_doi (record : List (String × Json)) : Nat :=
  ((boolean_activity_ids.filter (fun id => id != "doi")).filter (flag_true record)).length
    + (complex_activity_ids.filter (flag_true record)).length

/-- A record whose activity-id fields are stored as JSON booleans (the shape
every form save produces: checkboxes write `True`/`False`). -/
def BoolFlagRecord (record : List (String × Json)) : Prop :=
  ∀ id ∈ boolean_activity_ids ++ complex_activity_ids,
    ∀ v, record.lookup id = some v → ∃ b, v = Json.bool b

/-- The spec's worked example record
`{jung: true, english: false, exercise: true, exercise_time: 30}`. -/
def c8_example_record : List (String × Json) :=
  [("jung", Json.bool true), ("english", Json.bool false),
   ("exercise", Json.bool true), ("exercise_time", Json.num 30)]

/-- The eight selectable week starts of `render_week_selector`
(src/pages/Weekly.py lines 34-56): `get_week_start(today) -
timedelta(weeks=i)` for `i` in `range(8)`. -/
def render_week_selector_starts (today : Int) : List Int :=
  (List.range 8).map (fun i => get_week_start today - 7 * (i : Int))

/-- Python dict assignment `weekly_data[key] = rec` on an association list:
replace in place if the key is present, else append. Weekly keys are the ISO
strings of week-start dates; since `isoformat` is injective on dates, the
model keys the store by the date ordinals themselves. -/
def weekly_dict_set (weekly : List (Int × Json)) (k : Int) (v : Json) : List (Int × Json) :=
  if weekly.any (fun kv => kv.1 == k) then
    weekly.map (fun kv => if kv.1 == k then (k, v) else kv)
  else weekly ++ [(k, v)]

/-- The store update performed by a submitted `render_weekly_form`
(src/pages/Weekly.py lines 128-133 and 178-195): the key written is the ISO
string of `selected_week_start`, both for the placeholder insert (line 133)
and for the saved record (line 192). -/
def render_weekly_form_save (weekly : List (Int × Json)) (selected_week_start : Int)
    (rec : Json) : List (Int × Json) :=
  weekly_dict_set weekly selected_week_start rec

/-- Invariant: every key of the weekly collection is a Monday. -/
def MondayKeys (weekly : List (Int × Json)) : Prop :=
  ∀ kv ∈ weekly, get_week_start kv.1 = kv.1

/-- Collection with one (empty) record on each of 2024-01-01 .. 2024-01-10,
for the spec's `recentDates` worked example. -/
def c9_coll : List (String × Json) :=
  [("2024-01-01", Json.obj []), ("2024-01-02", Json.obj []),
   ("2024-01-03", Json.obj []), ("2024-01-04", Json.obj []),
   ("2024-01-05", Json.obj []), ("2024-01-06", Json.obj []),
   ("2024-01-07", Json.obj []), ("2024-01-08", Json.obj []),
   ("2024-01-09", Json.obj []), ("2024-01-10", Json.obj [])]
theorem nonDigitHead_nil : nonDigitHead [] := by
  intro c h; simp at h

theorem nonDigitHead_cons (c : Char) (r : List Char) (h : c.isDigit = false) :
    nonDigitHead (c :: r) := by
  intro d hd; simp at hd; subst hd; exact h

theorem digitChar_isDigit (d : Nat) : (digitChar d).isDigit = true := by
  unfold digitChar; split <;> rfl

theorem digitVal_digitChar (d : Nat) (h : d < 10) : digitVal (digitChar d) = d := by
  interval_cases d <;> rfl

theorem digitsVal_append (l : List Char) (c : Char) :
    digitsVal (l ++ [c]) = 10 * digitsVal l + digitVal c := by
  simp [digitsVal, List.foldl_append]; omega

theorem natChars_zero (f : Nat) : natChars f 0 = [] := by
  cases f <;> rfl

theorem natChars_digits (f : Nat) : ∀ n, ∀ c ∈ natChars f n, c.isDigit = true := by
  induction f with
  | zero => intro n c hc; simp [natChars] at hc
  | succ f ih =>
    intro n c hc
    by_cases h : n = 0
    · subst h; simp [natChars] at hc
    · simp only [natChars, if_neg h, List.mem_append, List.mem_singleton] at hc
      rcases hc with hc | hc
      · exact ih _ c hc
      · subst hc; exact digitChar_isDigit _

theorem natChars_spec (f : Nat) : ∀ n, 0 < n → n ≤ f →
    digitsVal (natChars f n) = n ∧ natChars f n ≠ [] := by
  induction f with
  | zero => intro n h1 h2; omega
  | succ f ih =>
    intro n h1 h2
    have hne : n ≠ 0 := by omega
    simp only [natChars, if_neg hne]
    constructor
    · rw [digitsVal_append]
      by_cases h10 : n < 10
      · have : n / 10 = 0 := by omega
        rw [this, natChars_zero]
        have : n % 10 = n := by omega
        rw [this, digitVal_digitChar n h10]
        simp [digitsVal]
      · have h1' : 0 < n / 10 := by omega
        have h2' : n / 10 ≤ f := by omega
        rw [(ih (n / 10) h1' h2').1, digitVal_digitChar _ (by omega)]
        omega
    · simp

theorem dumpNat_digits (n : Nat) : ∀ c ∈ dumpNat n, c.isDigit = true := by
  intro c hc
  unfold dumpNat at hc
  split at hc
  · simp at hc; subst hc; rfl
  · exact natChars_digits n n c hc

theorem dumpNat_val (n : Nat) : digitsVal (dumpNat n) = n := by
  unfold dumpNat
  split
  · subst_vars; rfl
  · exact (natChars_spec n n (by omega) (le_refl n)).1

theorem dumpNat_ne_nil (n : Nat) : dumpNat n ≠ [] := by
  unfold dumpNat
  split
  · simp
  · exact (natChars_spec n n (by omega) (le_refl n)).2

theorem takeWhile_digits_append (l : List Char) (rest : List Char)
    (hl : ∀ c ∈ l, c.isDigit = true) (hr : nonDigitHead rest) :
    (l ++ rest).takeWhile Char.isDigit = l ∧ (l ++ rest).dropWhile Char.isDigit = rest := by
  induction l with
  | nil =>
    simp only [List.nil_append]
    cases rest with
    | nil => simp
    | cons c t =>
      have : c.isDigit = false := hr c rfl
      simp [List.takeWhile_cons, List.dropWhile_cons, this]
  | cons c t ih =>
    have hc : c.isDigit = true := hl c (by simp)
    have iht := ih (fun d hd => hl d (by simp [hd]))
    simp [List.takeWhile_cons, List.dropWhile_cons, hc, iht.1, iht.2]

theorem parseNum_dumpNat (n : Nat) (rest : List Char) (hr : nonDigitHead rest) :
    parseNum (dumpNat n ++ rest) = some (n, rest) := by
  have h := takeWhile_digits_append (dumpNat n) rest (dumpNat_digits n) hr
  unfold parseNum
  rw [h.1, h.2]
  have : (dumpNat n).isEmpty = false := by
    cases hd : dumpNat n with
    | nil => exact absurd hd (dumpNat_ne_nil n)
    | cons a b => rfl
  simp [this, dumpNat_val n]

theorem parseStrAux_escString (l : List Char) : ∀ rest : List Char,
    parseStrAux (escString l ++ '"' :: rest) = some (l, rest) := by
  induction l with
  | nil =>
    intro rest
    rw [escString, List.nil_append, parseStrAux.eq_def]
    simp
  | cons c t ih =>
    intro rest
    by_cases hc : c = '"' ∨ c = '\\'
    · have he : escChar c = ['\\', c] := by simp [escChar, hc]
      simp only [escString, he, List.cons_append, List.append_assoc]
      rw [parseStrAux.eq_def]
      simp only [List.nil_append]
      simp [hc, ih rest]
    · push_neg at hc
      have he : escChar c = [c] := by simp [escChar, hc.1, hc.2]
      simp only [escString, he, List.cons_append, List.append_assoc]
      rw [parseStrAux.eq_def]
      simp only [List.nil_append]
      simp [hc.1, hc.2, ih rest]

theorem not_isValueHead_ne (c d : Char) (h : isValueHead c = true)
    (hd : isValueHead d = false) : c ≠ d := by
  intro e
  rw [e, hd] at h
  exact absurd h (by simp)

theorem isValueHead_ne_close (c : Char) (h : isValueHead c = true) :
    c ≠ ']' ∧ c ≠ '\x7d' ∧ c ≠ ',' :=
  ⟨not_isValueHead_ne c ']' h (by decide), not_isValueHead_ne c '\x7d' h (by decide),
   not_isValueHead_ne c ',' h (by decide)⟩

theorem isDigit_ne (c d : Char) (h : c.isDigit = true) (hd : d.isDigit = false) :
    c ≠ d := by
  intro e
  rw [e, hd] at h
  exact absurd h (by simp)

theorem dumpVal_cons (j : Json) : ∃ c cs, dumpVal j = c :: cs ∧ isValueHead c = true := by
  cases j with
  | null => exact ⟨'n', _, rfl, rfl⟩
  | bool b =>
    cases b
    · exact ⟨'f', _, rfl, rfl⟩
    · exact ⟨'t', _, rfl, rfl⟩
  | num i =>
    simp only [dumpVal]
    unfold dumpInt
    by_cases h : i < 0
    · rw [if_pos h]; exact ⟨'-', _, rfl, rfl⟩
    · rw [if_neg h]
      rcases hd : dumpNat i.natAbs with _ | ⟨c, cs⟩
      · exact absurd hd (dumpNat_ne_nil _)
      · have hc : c.isDigit = true := dumpNat_digits _ c (by rw [hd]; simp)
        exact ⟨c, cs, rfl, by simp [isValueHead, hc]⟩
  | str s => exact ⟨'"', _, rfl, rfl⟩
  | arr xs => exact ⟨'[', _, rfl, rfl⟩
  | obj ms => exact ⟨'\x7b', _, rfl, rfl⟩

theorem parse_dump_mutual : ∀ fuel : Nat,
    (∀ (j : Json) (rest : List Char), (dumpVal j).length < fuel → nonDigitHead rest →
      parseVal fuel (dumpVal j ++ rest) = some (j, rest)) ∧
    (∀ (xs : List Json) (rest : List Char), (dumpElems xs).length + 1 < fuel →
      parseElems fuel (dumpElems xs ++ ']' :: rest) = some (xs, rest)) ∧
    (∀ (ms : List (String × Json)) (rest : List Char), (dumpMembers ms).length + 1 < fuel →
      parseMembers fuel (dumpMembers ms ++ '\x7d' :: rest) = some (ms, rest)) := by
  intro fuel
  induction fuel with
  | zero => refine ⟨?_, ?_, ?_⟩ <;> (intro _ _ h; omega)
  | succ f ih =>
    obtain ⟨ihV, ihE, ihM⟩ := ih
    refine ⟨?_, ?_, ?_⟩
    · intro j rest hlen hrest
      cases j with
      | null =>
        simp only [dumpVal, List.singleton_append, List.cons_append, List.nil_append]
        rw [parseVal.eq_def]
        simp
      | bool b =>
        cases b <;>
          (simp only [dumpVal, List.singleton_append, List.cons_append, List.nil_append]
           rw [parseVal.eq_def]
           simp)
      | num i =>
        simp only [dumpVal] at hlen ⊢
        unfold dumpInt at hlen ⊢
        by_cases h : i < 0
        · rw [if_pos h] at hlen ⊢
          rw [List.cons_append, parseVal.eq_def]
          have hpn := parseNum_dumpNat i.natAbs rest hrest
          have hni : -((i.natAbs : Int)) = i := by omega
          simp only [reduceIte, hpn]
          simp only [Int.natCast_natAbs] at hni
          simp [hni]
        · rw [if_neg h] at hlen ⊢
          rcases hd : dumpNat i.natAbs with _ | ⟨c, cs⟩
          · exact absurd hd (dumpNat_ne_nil _)
          · have hdig : c.isDigit = true := dumpNat_digits _ c (by rw [hd]; simp)
            have h1 := isDigit_ne c 'n' hdig (by decide)
            have h2 := isDigit_ne c 't' hdig (by decide)
            have h3 := isDigit_ne c 'f' hdig (by decide)
            have h4 := isDigit_ne c '"' hdig (by decide)
            have h5 := isDigit_ne c '[' hdig (by decide)
            have h6 := isDigit_ne c '\x7b' hdig (by decide)
            have h7 := isDigit_ne c '-' hdig (by decide)
            rw [List.cons_append, parseVal.eq_def]
            simp only [if_neg h1, if_neg h2, if_neg h3, if_neg h4, if_neg h5, if_neg h6,
              if_neg h7]
            rw [show c :: (cs ++ rest) = dumpNat i.natAbs ++ rest from by rw [hd]; simp]
            rw [parseNum_dumpNat _ rest hrest]
            have hni : ((i.natAbs : Int)) = i := by omega
            simp [hni]
      | str s =>
        cases s with
        | mk d =>
          simp only [dumpVal, List.cons_append, List.append_assoc, List.singleton_append]
          rw [parseVal.eq_def]
          simp [parseStrAux_escString d]
      | arr xs =>
        simp only [dumpVal, List.length_cons, List.length_append, List.length_singleton]
          at hlen
        have he := ihE xs rest (by omega)
        simp only [dumpVal, List.cons_append, List.append_assoc, List.singleton_append]
        rw [parseVal.eq_def]
        simp [he]
      | obj ms =>
        simp only [dumpVal, List.length_cons, List.length_append, List.length_singleton]
          at hlen
        have hm := ihM ms rest (by omega)
        simp only [dumpVal, List.cons_append, List.append_assoc, List.singleton_append]
        rw [parseVal.eq_def]
        simp [hm]
    · intro xs rest hlen
      cases xs with
      | nil =>
        simp only [dumpElems, List.nil_append]
        rw [parseElems.eq_def]
        simp
      | cons x t =>
        obtain ⟨c, cs, hdump, hhead⟩ := dumpVal_cons x
        obtain ⟨hc1, hc2, hc3⟩ := isValueHead_ne_close c hhead
        cases t with
        | nil =>
          simp only [dumpElems, List.length_cons] at hlen
          have hv := ihV x (']' :: rest) (by omega)
            (nonDigitHead_cons ']' rest (by decide))
          have hshape : dumpElems [x] ++ ']' :: rest
              = c :: (cs ++ ']' :: rest) := by
            simp [dumpElems, hdump]
          rw [hshape, parseElems.eq_def]
          simp only [if_neg hc1]
          rw [show c :: (cs ++ ']' :: rest) = dumpVal x ++ ']' :: rest from by
            rw [hdump]; simp]
          simp [hv]
        | cons y u =>
          simp only [dumpElems, List.length_append, List.length_cons] at hlen
          have hv := ihV x (',' :: (dumpElems (y :: u) ++ ']' :: rest)) (by omega)
            (nonDigitHead_cons ',' _ (by decide))
          have he := ihE (y :: u) rest (by omega)
          have hshape : dumpElems (x :: y :: u) ++ ']' :: rest
              = c :: (cs ++ (',' :: (dumpElems (y :: u) ++ ']' :: rest))) := by
            simp [dumpElems, hdump]
          rw [hshape, parseElems.eq_def]
          simp only [if_neg hc1]
          rw [show c :: (cs ++ (',' :: (dumpElems (y :: u) ++ ']' :: rest)))
              = dumpVal x ++ (',' :: (dumpElems (y :: u) ++ ']' :: rest)) from by
            rw [hdump]; simp]
          simp [hv, he]
    · intro ms rest hlen
      cases ms with
      | nil =>
        simp only [dumpMembers, List.nil_append]
        rw [parseMembers.eq_def]
        simp
      | cons kv t =>
        obtain ⟨k, v⟩ := kv
        cases k with
        | mk kd =>
          cases t with
          | nil =>
            simp only [dumpMembers, List.length_cons, List.length_append] at hlen
            have hv := ihV v ('\x7d' :: rest) (by omega)
              (nonDigitHead_cons '\x7d' rest (by decide))
            have hshape : dumpMembers [(String.mk kd, v)] ++ '\x7d' :: rest
                = '"' :: (escString kd ++ '"' :: (':' :: (dumpVal v ++ '\x7d' :: rest))) := by
              simp [dumpMembers]
            rw [hshape, parseMembers.eq_def]
            simp only [reduceIte]
            rw [parseStrAux_escString kd]
            simp [hv]
          | cons m u =>
            simp only [dumpMembers, List.length_append, List.length_cons] at hlen
            have hv := ihV v (',' :: (dumpMembers (m :: u) ++ '\x7d' :: rest)) (by omega)
              (nonDigitHead_cons ',' _ (by decide))
            have hm := ihM (m :: u) rest (by omega)
            have hshape : dumpMembers ((String.mk kd, v) :: m :: u) ++ '\x7d' :: rest
                = '"' :: (escString kd ++ '"' :: (':' :: (dumpVal v
                    ++ ',' :: (dumpMembers (m :: u) ++ '\x7d' :: rest)))) := by
              simp [dumpMembers]
            rw [hshape, parseMembers.eq_def]
            simp only [reduceIte]
            rw [parseStrAux_escString kd]
            simp [hv, hm]

theorem parseVal_dumpVal (j : Json) (fuel : Nat) (rest : List Char)
    (h : (dumpVal j).length < fuel) (hr : nonDigitHead rest) :
    parseVal fuel (dumpVal j ++ rest) = some (j, rest) :=
  (parse_dump_mutual fuel).1 j rest h hr

theorem loads_dumps (j : Json) : loads (dumps j) = some j := by
  have h := parseVal_dumpVal j ((dumpVal j).length + 1) [] (by omega) nonDigitHead_nil
  rw [List.append_nil] at h
  have hlen : (String.mk (dumpVal j)).length = (dumpVal j).length := rfl
  have hdata : (String.mk (dumpVal j)).data = dumpVal j := rfl
  unfold loads dumps
  rw [hlen, hdata, h]

theorem load_data_save_data (c : Json) : load_data (some (save_data c)) = c := by
  show (match loads (dumps c) with
    | some j => j
    | none => Json.obj []) = c
  rw [loads_dumps]

theorem lookup_gist_files_update_self (cont : GistFiles) (fn : String) (D : Json) :
    (gist_files_update cont fn D).lookup fn = some (dumps D) := by
  unfold gist_files_update
  induction cont with
  | nil => simp [List.lookup]
  | cons kv t ih =>
    obtain ⟨k, v⟩ := kv
    by_cases hk : k = fn
    · subst hk
      simpa [List.filter_cons] using ih
    · simp only [List.filter_cons]
      have hb : (k != fn) = true := by simp [hk]
      rw [hb]
      simp only [if_true, List.cons_append, List.lookup]
      have : (fn == k) = false := by simp [Ne.symm hk]
      rw [this]
      exact ih

theorem lookup_gist_files_update_other (cont : GistFiles) (fn name : String) (D : Json)
    (h : name ≠ fn) :
    (gist_files_update cont fn D).lookup name = cont.lookup name := by
  unfold gist_files_update
  induction cont with
  | nil =>
    have hb : (name == fn) = false := by simp [h]
    simp [List.lookup, hb]
  | cons kv t ih =>
    obtain ⟨k, v⟩ := kv
    by_cases hk : k = fn
    · subst hk
      simp only [List.filter_cons, bne_self_eq_false, if_false, List.lookup]
      have : (name == k) = false := by simp [h]
      rw [this]
      exact ih
    · simp only [List.filter_cons]
      have hb : (k != fn) = true := by simp [hk]
      rw [hb]
      simp only [if_true, List.cons_append, List.lookup]
      cases hnk : (name == k) with
      | true => rfl
      | false => exact ih

theorem mem_keys_gist_files_update (cont : GistFiles) (fn : String) (D : Json)
    (k : String) (v : String) (hm : (k, v) ∈ cont) :
    ∃ v2, (k, v2) ∈ gist_files_update cont fn D := by
  unfold gist_files_update
  by_cases hk : k = fn
  · subst hk; exact ⟨dumps D, by simp⟩
  · refine ⟨v, List.mem_append_left _ ?_⟩
    rw [List.mem_filter]
    exact ⟨hm, by simp [hk]⟩

/-- C1: for every collection, the sync-level save (`save_daily_data` /
`save_weekly_data`, both instances of `sync_save`) writes the collection to
the local store first, and signals `PersistenceError` to its caller exactly
when that local write fails; a remote (Gist) failure (any combination of the
`fetch_ok` / `patch_ok` flags) never makes the save fail, and after a save in
which only the remote part failed the local document still holds the
collection. When the local write fails, nothing at all has been written (the
remote save is never attempted). -/
theorem C1_sync_save_local_first_remote_nonfatal :
    ∀ (env : SyncEnv) (lf : Option String) (cont : GistFiles) (data : Json) (fn : String),
      ((sync_save env lf cont data fn).persistence_error = true ↔ env.local_write_ok = false) ∧
      (env.local_write_ok = false →
        sync_save env lf cont data fn = ⟨true, lf, cont⟩) ∧
      (env.local_write_ok = true →
        (sync_save env lf cont data fn).local_file = some (save_data data) ∧
        load_data (sync_save env lf cont data fn).local_file = data) := by
  intro env lf cont data fn
  unfold sync_save
  cases hw : env.local_write_ok with
  | false => simp
  | true =>
    simp only [Bool.true_eq_false, if_false]
    cases hg : env.gist_configured with
    | false => simp [load_data_save_data]
    | true => simp [load_data_save_data]

theorem C1_witness :
    load_data (sync_save ⟨true, false, false, true⟩ none [] (Json.obj []) "daily_data.json").local_file
      = Json.obj [] :=
  ((C1_sync_save_local_first_remote_nonfatal ⟨true, false, false, true⟩ none [] (Json.obj [])
    "daily_data.json").2.2 rfl).2

/-- C2: whenever the remote store is not configured, or the remote load
fails (the GET raises), or the remote load yields a falsy (empty) result,
the sync-level load (`load_daily_data` / `load_weekly_data`, instances of
`sync_load`) returns exactly the result of the local load and leaves the
local document unchanged. -/
theorem C2_sync_load_falls_back_to_local :
    ∀ (env : SyncEnv) (lf : Option String) (cont : GistFiles) (fn : String),
      (env.gist_configured = false ∨ env.fetch_ok = false ∨
        (load_data_from_gist env cont fn).truthy = false) →
      sync_load env lf cont fn = ⟨load_data lf, lf⟩ := by
  intro env lf cont fn h
  unfold sync_load
  cases hg : env.gist_configured with
  | false => simp
  | true =>
    have ht : (load_data_from_gist env cont fn).truthy = false := by
      rcases h with h | h | h
      · rw [hg] at h; exact absurd h (by simp)
      · unfold load_data_from_gist
        simp [hg, h, Json.truthy]
      · exact h
    simp [ht]

theorem C2_witness :
    sync_load ⟨true, false, true, true⟩ (some "LOCAL") [] "daily_data.json"
      = ⟨load_data (some "LOCAL"), some "LOCAL"⟩ :=
  C2_sync_load_falls_back_to_local ⟨true, false, true, true⟩ (some "LOCAL") [] "daily_data.json"
    (Or.inr (Or.inl rfl))

/-- C3: when the remote load yields a non-empty (truthy) collection `D`, the
sync-level load returns `D` and overwrites the local document with exactly
the serialization of `D` — after the load, the local store parses back to
the remote collection, with any previous local-only records discarded
(independently of the previous local file `lf`). The backup write is assumed
to succeed (`local_write_ok`); if it raised, the code would fall back to the
local load instead. -/
theorem C3_sync_load_remote_nonempty_overwrites_local :
    ∀ (env : SyncEnv) (lf : Option String) (cont : GistFiles) (fn : String) (D : Json),
      env.gist_configured = true → env.local_write_ok = true →
      load_data_from_gist env cont fn = D → D.truthy = true →
      sync_load env lf cont fn = ⟨D, some (save_data D)⟩ ∧
      load_data (some (save_data D)) = D := by
  intro env lf cont fn D hg hw hD ht
  unfold sync_load
  rw [hD]
  simp [hg, hw, ht, load_data_save_data]

theorem C3_witness :
    sync_load ⟨true, true, true, true⟩
        (some (dumps (Json.obj [("old-entry", Json.bool true)])))
        [("daily_data.json", dumps (Json.obj [("2024-01-01", Json.obj [])]))]
        "daily_data.json"
      = ⟨Json.obj [("2024-01-01", Json.obj [])],
         some (save_data (Json.obj [("2024-01-01", Json.obj [])]))⟩ :=
  (C3_sync_load_remote_nonempty_overwrites_local ⟨true, true, true, true⟩
    (some (dumps (Json.obj [("old-entry", Json.bool true)])))
    [("daily_data.json", dumps (Json.obj [("2024-01-01", Json.obj [])]))]
    "daily_data.json" (Json.obj [("2024-01-01", Json.obj [])])
    rfl rfl
    (by unfold load_data_from_gist
        simp [List.lookup, loads_dumps])
    rfl).1

/-- C4: the local-store load never raises: an absent backing file yields the
empty collection, and a present file whose content fails JSON parsing
(`loads` returns `none`, modelling a raised `JSONDecodeError`) also yields
the empty collection. -/
theorem C4_load_data_absent_or_corrupt_is_empty :
    load_data none = Json.obj [] ∧
    ∀ s : String, loads s = none → load_data (some s) = Json.obj [] := by
  refine ⟨rfl, ?_⟩
  intro s h
  show (match loads s with
    | some j => j
    | none => Json.obj []) = Json.obj []
  rw [h]

theorem C4_witness :
    loads "corrupt ###" = none ∧ load_data (some "corrupt ###") = Json.obj [] :=
  ⟨rfl, C4_load_data_absent_or_corrupt_is_empty.2 "corrupt ###" rfl⟩

/-- C5: on the success path, the remote save re-submits the container so
that the named file holds the serialization of the saved collection, every
sibling file keeps exactly the content it had before, and no file present
before the save is dropped. -/
theorem C5_gist_save_preserves_siblings :
    ∀ (env : SyncEnv) (cont : GistFiles) (D : Json) (fn name : String),
      env.gist_configured = true → env.fetch_ok = true → env.patch_ok = true →
      (save_data_to_gist env cont D fn).ok = true ∧
      (save_data_to_gist env cont D fn).container.lookup fn = some (dumps D) ∧
      (name ≠ fn →
        (save_data_to_gist env cont D fn).container.lookup name = cont.lookup name) ∧
      ∀ k v, (k, v) ∈ cont → ∃ v2, (k, v2) ∈ (save_data_to_gist env cont D fn).container := by
  intro env cont D fn name h1 h2 h3
  have hres : save_data_to_gist env cont D fn = ⟨true, gist_files_update cont fn D⟩ := by
    unfold save_data_to_gist
    simp [h1, h2, h3]
  rw [hres]
  exact ⟨rfl, lookup_gist_files_update_self cont fn D,
    fun hne => lookup_gist_files_update_other cont fn name D hne,
    fun k v hm => mem_keys_gist_files_update cont fn D k v hm⟩

theorem C5_witness :
    (save_data_to_gist ⟨true, true, true, true⟩
        [("other.json", "SIBLING CONTENT"), ("daily_data.json", "OLD")]
        (Json.obj []) "daily_data.json").container.lookup "other.json"
      = some "SIBLING CONTENT" :=
  ((C5_gist_save_preserves_siblings ⟨true, true, true, true⟩
      [("other.json", "SIBLING CONTENT"), ("daily_data.json", "OLD")]
      (Json.obj []) "daily_data.json" "other.json" rfl rfl rfl).2.2.1
    (by decide)).trans rfl

/-- C6 counterexample: the claim says remote failures signal
`RemoteUnavailable` (an error result carrying the cause) to the caller
rather than returning an ordinary value. In the code every failure is caught
inside the remote functions themselves: a failing load returns the plain
empty dict — literally the same ordinary value a successful load of an empty
remote document returns, so no error (and no cause) reaches the caller — and
a failing save returns the plain boolean `False`, leaving the container
untouched. -/
theorem C6_counterexample_failure_returns_ordinary_value :
    load_data_from_gist ⟨true, false, true, true⟩
        [("daily_data.json", "\x7b\x7d")] "daily_data.json"
      = load_data_from_gist ⟨true, true, true, true⟩
        [("daily_data.json", "\x7b\x7d")] "daily_data.json" ∧
    (save_data_to_gist ⟨true, false, true, true⟩ [("daily_data.json", "\x7b\x7d")]
        (Json.obj [("k", Json.bool true)]) "daily_data.json").ok = false :=
  ⟨rfl, rfl⟩

/-- C6 amended: on any transport/auth failure (`fetch_ok = false`), the
remote load displays an error and returns the empty dict, and the remote
save returns `False` with the container unchanged; on a PATCH failure the
save likewise returns `False` with the container unchanged; and when the
fetched file content fails JSON parsing, the load also returns the empty
dict. No exception propagates to the caller in any of these cases. -/
theorem C6_amended_remote_failure_returns_empty_or_false :
    ∀ (env : SyncEnv) (cont : GistFiles) (fn : String) (d : Json),
      (env.gist_configured = true → env.fetch_ok = false →
        load_data_from_gist env cont fn = Json.obj [] ∧
        save_data_to_gist env cont d fn = ⟨false, cont⟩) ∧
      (env.gist_configured = true → env.fetch_ok = true → env.patch_ok = false →
        save_data_to_gist env cont d fn = ⟨false, cont⟩) ∧
      (∀ content, env.gist_configured = true → env.fetch_ok = true →
        cont.lookup fn = some content → loads content = none →
        load_data_from_gist env cont fn = Json.obj []) := by
  intro env cont fn d
  refine ⟨?_, ?_, ?_⟩
  · intro hg hf
    constructor
    · unfold load_data_from_gist
      simp [hg, hf]
    · unfold save_data_to_gist
      simp [hg, hf]
  · intro hg hf hp
    unfold save_data_to_gist
    simp [hg, hf, hp]
  · intro content hg hf hl hparse
    unfold load_data_from_gist
    simp [hg, hf, hl, hparse]

theorem C6_witness :
    load_data_from_gist ⟨true, true, true, true⟩
        [("daily_data.json", "oops not json")] "daily_data.json" = Json.obj [] :=
  (C6_amended_remote_failure_returns_empty_or_false ⟨true, true, true, true⟩
      [("daily_data.json", "oops not json")] "daily_data.json" Json.null).2.2
    "oops not json" rfl rfl rfl rfl

/-- C7: saving any collection to the local store and loading it back returns
an equal collection — both at the record-store level (`save_data` then
`load_data`) and through the sync layer with the remote store not configured
(`sync_save` then `sync_load`, the bodies of `save_daily_data` /
`load_daily_data` and their weekly twins). -/
theorem C7_local_roundtrip :
    (∀ c : Json, load_data (some (save_data c)) = c) ∧
    ∀ (c : Json) (env : SyncEnv) (lf : Option String) (cont : GistFiles) (fn : String),
      env.gist_configured = false → env.local_write_ok = true →
      (sync_save env lf cont c fn).persistence_error = false ∧
      (sync_load env (sync_save env lf cont c fn).local_file
        (sync_save env lf cont c fn).container fn).data = c := by
  refine ⟨load_data_save_data, ?_⟩
  intro c env lf cont fn hg hw
  unfold sync_save sync_load
  simp [hg, hw, load_data_save_data]

theorem C7_witness :
    (sync_save ⟨false, false, false, true⟩ none []
        (Json.obj [("2024-01-01", Json.obj [("jung", Json.bool true), ("weight", Json.num 65)])])
        "daily_data.json").persistence_error = false ∧
    (sync_load ⟨false, false, false, true⟩
        (sync_save ⟨false, false, false, true⟩ none []
          (Json.obj [("2024-01-01", Json.obj [("jung", Json.bool true), ("weight", Json.num 65)])])
          "daily_data.json").local_file
        (sync_save ⟨false, false, false, true⟩ none []
          (Json.obj [("2024-01-01", Json.obj [("jung", Json.bool true), ("weight", Json.num 65)])])
          "daily_data.json").container
        "daily_data.json").data
      = Json.obj [("2024-01-01", Json.obj [("jung", Json.bool true), ("weight", Json.num 65)])] :=
  C7_local_roundtrip.2
    (Json.obj [("2024-01-01", Json.obj [("jung", Json.bool true), ("weight", Json.num 65)])])
    ⟨false, false, false, true⟩ none [] "daily_data.json" rfl rfl

theorem record_truthy_at_eq_flag_true (record : List (String × Json)) (id : String)
    (h : ∀ v, record.lookup id = some v → ∃ b, v = Json.bool b) :
    record_truthy_at record id = flag_true record id := by
  unfold record_truthy_at flag_true
  cases hl : record.lookup id with
  | none => rfl
  | some v =>
    obtain ⟨b, rfl⟩ := h v hl
    cases b <;> rfl

theorem filter_truthy_eq_filter_flag (record : List (String × Json)) (ids : List String)
    (h : ∀ id ∈ ids, ∀ v, record.lookup id = some v → ∃ b, v = Json.bool b) :
    ids.filter (record_truthy_at record) = ids.filter (flag_true record) :=
  List.filter_congr (fun id hid => record_truthy_at_eq_flag_true record id (h id hid))

theorem weekly_page_booleans_perm :
    List.Perm weekly_page_boolean_activities
      (boolean_activity_ids.filter (fun id => id != "doi")) := by
  decide

theorem weekly_page_complex_perm :
    List.Perm weekly_page_complex_activities complex_activity_ids := by
  decide

theorem weekly_page_booleans_subset :
    ∀ id ∈ weekly_page_boolean_activities, id ∈ boolean_activity_ids := by
  decide

theorem weekly_page_complex_subset :
    ∀ id ∈ weekly_page_complex_activities, id ∈ complex_activity_ids := by
  decide

/-- C8 counterexample: the claim states that the daily completion count (it
cites both the dashboard's and the Weekly page's implementation) counts the
boolean activities of the catalog whose flag is true. The Weekly page's
hard-coded boolean list omits the catalog activity `doi`, so on the record
`{doi: true}` it counts 0 while the catalog-based count is 1. -/
theorem C8_counterexample_weekly_page_omits_doi :
    weekly_page_activity_count [("doi", Json.bool true)] = 0 ∧
    spec_dailyCompletionCount [("doi", Json.bool true)] = 1 ∧
    dashboard_completed_count [("doi", Json.bool true)] = 1 :=
  ⟨rfl, rfl, rfl⟩

/-- C8 amended: for every daily record whose activity-id fields are stored
as booleans, the dashboard's completion count equals the number of catalog
boolean activities whose flag is true plus the number of complex activities
(`exercise`, `thesis`) whose completion flag is true; the Weekly page's
per-day count equals the same quantity computed with `doi` removed from the
boolean list. Numeric sub-measurements (`exercise_time`,
`thesis_wordcount`) are ignored by both counts, and on the spec's example
record `{jung: true, english: false, exercise: true, exercise_time: 30}`
both counts are 2. -/
theorem C8_amended_completion_counts :
    (∀ record : List (String × Json), BoolFlagRecord record →
      dashboard_completed_count record = spec_dailyCompletionCount record ∧
      weekly_page_activity_count record = spec_dailyCompletionCount_no_doi record) ∧
    dashboard_completed_count c8_example_record = 2 ∧
    weekly_page_activity_count c8_example_record = 2 := by
  refine ⟨?_, rfl, rfl⟩
  intro record hrec
  have hbool : ∀ id ∈ boolean_activity_ids, ∀ v,
      record.lookup id = some v → ∃ b, v = Json.bool b :=
    fun id hid => hrec id (List.mem_append_left _ hid)
  have hcplx : ∀ id ∈ complex_activity_ids, ∀ v,
      record.lookup id = some v → ∃ b, v = Json.bool b :=
    fun id hid => hrec id (List.mem_append_right _ hid)
  constructor
  · unfold dashboard_completed_count spec_dailyCompletionCount
    rw [filter_truthy_eq_filter_flag record boolean_activity_ids hbool,
      filter_truthy_eq_filter_flag record complex_activity_ids hcplx]
  · unfold weekly_page_activity_count spec_dailyCompletionCount_no_doi
    have h1 : ∀ id ∈ weekly_page_boolean_activities, ∀ v,
        record.lookup id = some v → ∃ b, v = Json.bool b :=
      fun id hid => hbool id (weekly_page_booleans_subset id hid)
    have h2 : ∀ id ∈ weekly_page_complex_activities, ∀ v,
        record.lookup id = some v → ∃ b, v = Json.bool b :=
      fun id hid => hcplx id (weekly_page_complex_subset id hid)
    rw [filter_truthy_eq_filter_flag record weekly_page_boolean_activities h1,
      filter_truthy_eq_filter_flag record weekly_page_complex_activities h2,
      (weekly_page_booleans_perm.filter (flag_true record)).length_eq,
      (weekly_page_complex_perm.filter (flag_true record)).length_eq]

theorem C8_witness :
    dashboard_completed_count [] = spec_dailyCompletionCount [] ∧
    weekly_page_activity_count [] = spec_dailyCompletionCount_no_doi [] :=
  C8_amended_completion_counts.1 []
    (by intro id hid v hv; simp [List.lookup] at hv)

/-- C9: the recent-dates computation keeps exactly the keys that parse as
ISO dates and lie within the window (`today - key ≤ within_days`; unparsable
keys are discarded by the `except ValueError: continue`), sorts them
ascending, and returns at most `lim` dates, each of which originates from a
key of the collection and lies within the window. On the spec's example —
records on 2024-01-01 .. 2024-01-10, window 60, limit 7, today inside the
window (2024-01-15) — it returns the 7 dates 2024-01-04 .. 2024-01-10 in
ascending order. -/
theorem C9_recent_dates_filter_sort_limit :
    (∀ (today : Int) (coll : List (String × Json)) (w l : Nat),
      List.Sorted (· ≤ ·) (recent_dates today coll w l) ∧
      (recent_dates today coll w l).length ≤ l ∧
      ∀ d ∈ recent_dates today coll w l,
        today - d ≤ (w : Int) ∧ ∃ k v, (k, v) ∈ coll ∧ parse_iso_date k = some d) ∧
    recent_dates (date_ordinal 2024 1 15) c9_coll 60 7 =
      [date_ordinal 2024 1 4, date_ordinal 2024 1 5, date_ordinal 2024 1 6,
       date_ordinal 2024 1 7, date_ordinal 2024 1 8, date_ordinal 2024 1 9,
       date_ordinal 2024 1 10] := by
  constructor
  · intro today coll w l
    simp only [recent_dates]
    set S := (recent_dates_pool today coll w).insertionSort (· ≤ ·) with hS
    have hsorted : List.Sorted (· ≤ ·) S := by
      rw [hS]; exact List.sorted_insertionSort _ _
    refine ⟨?_, ?_, ?_⟩
    · split
      · exact List.Pairwise.sublist (List.drop_sublist _ _) hsorted
      · exact hsorted
    · split
      · rw [List.length_drop]; omega
      · omega
    · intro d hd
      have hdS : d ∈ S := by
        revert hd; split
        · intro hd; exact List.mem_of_mem_drop hd
        · intro hd; exact hd
      have hdA : d ∈ recent_dates_pool today coll w := by
        have hperm : List.Perm S (recent_dates_pool today coll w) := by
          rw [hS]; exact List.perm_insertionSort _ _
        exact hperm.mem_iff.mp hdS
      unfold recent_dates_pool at hdA
      obtain ⟨kv, hkv, hf⟩ := List.mem_filterMap.mp hdA
      cases hp : parse_iso_date kv.1 with
      | none => rw [hp] at hf; simp at hf
      | some d2 =>
        rw [hp] at hf
        have hf2 : (if today - d2 ≤ (w : Int) then some d2 else none) = some d := hf
        by_cases hin : today - d2 ≤ (w : Int)
        · rw [if_pos hin] at hf2
          obtain rfl : d2 = d := by simpa using hf2
          exact ⟨hin, kv.1, kv.2, hkv, hp⟩
        · rw [if_neg hin] at hf2; simp at hf2
  · rfl

theorem C9_witness :
    (date_ordinal 2024 1 15) - (date_ordinal 2024 1 10) ≤ ((60 : Nat) : Int) ∧
    ∃ k v, (k, v) ∈ c9_coll ∧ parse_iso_date k = some (date_ordinal 2024 1 10) :=
  (C9_recent_dates_filter_sort_limit.1 (date_ordinal 2024 1 15) c9_coll 60 7).2.2
    (date_ordinal 2024 1 10) (by decide)

/-- C10: every key under which the weekly save path stores a weekly record
is a Monday. Each selectable week start produced by `render_week_selector`
satisfies `get_week_start s = s` (equivalently weekday 0), and a submitted
weekly form (whose key is the selected week start) maps a weekly collection
whose keys are all Mondays to one whose keys are still all Mondays. -/
theorem C10_weekly_keys_are_mondays :
    ∀ (today s : Int), s ∈ render_week_selector_starts today →
      (get_week_start s = s ∧ date_weekday s = 0) ∧
      ∀ (weekly : List (Int × Json)) (rec : Json), MondayKeys weekly →
        MondayKeys (render_weekly_form_save weekly s rec) := by
  intro today s hs
  simp only [render_week_selector_starts, List.mem_map, List.mem_range] at hs
  obtain ⟨i, hi, rfl⟩ := hs
  have hmon : get_week_start (get_week_start today - 7 * (i : Int))
      = get_week_start today - 7 * (i : Int) ∧
      date_weekday (get_week_start today - 7 * (i : Int)) = 0 := by
    unfold get_week_start date_weekday
    omega
  refine ⟨hmon, ?_⟩
  intro weekly rec hW kv hkv
  unfold render_weekly_form_save weekly_dict_set at hkv
  split at hkv
  · obtain ⟨kv0, hkv0, hmap⟩ := List.mem_map.mp hkv
    split at hmap
    · rw [← hmap]
      exact hmon.1
    · rw [← hmap]
      exact hW kv0 hkv0
  · rcases List.mem_append.mp hkv with h | h
    · exact hW kv h
    · have : kv = (get_week_start today - 7 * (i : Int), rec) := by simpa using h
      rw [this]
      exact hmon.1

theorem C10_witness :
    get_week_start 739901 = 739901 ∧
    MondayKeys (render_weekly_form_save [] 739901 (Json.obj [])) :=
  ⟨((C10_weekly_keys_are_mondays 739901 739901 (by decide)).1).1,
   (C10_weekly_keys_are_mondays 739901 739901 (by decide)).2 [] (Json.obj [])
     (by intro kv hkv; simp at hkv)⟩
